import Mathlib

/-!
Shallow embedding of the beaker-plugin-safe-app session and authorization
layer: the safe_app API module (src/unnamed/part_000) and the public sign
key capability adapter (src/src/api/crypto_public_sign_key.js), over a
model of the handle registry (helpers.js, absent from src, modelled from
the spec) and of the native safe-app collaborator at its interface.
-/

set_option autoImplicit false

/-- Error taxonomy of the layer (spec section 7), plus two faults the
JavaScript runtime itself raises: ReferenceFault for evaluating an unbound
variable and TypeFault for a member access on a value of the wrong shape. -/
inductive Err
  | UnknownHandle
  | InvalidSession
  | AuthorizationDenied
  | DispatchFailed
  | OperationFailed
  | ReferenceFault
  | TypeFault
  deriving DecidableEq

/-- AppInfo as documented in part_000 lines 28-35, together with the scope
field that initialise writes (part_000 lines 54-59). -/
structure AppInfo where
  id : String
  name : String
  vendor : String
  scope : Option String
  deriving DecidableEq

/-- Modelled from the spec: the native safe-app session behaviour is out of
scope and specified only at its interface (spec section 1). These fields
record the values the native session returns to the query and container
operations the source invokes on obj.app; a result of none models the
native promise rejecting. -/
structure NativeBehavior where
  access : String → List String → Bool
  containerNames : List String
  containers : String → Option Nat
  homeContainer : Option Nat
  webFetchFile : String → Option Nat

/-- Modelled from the spec: the native application session (spec section 3,
Session), observed through the properties the source reads
(auth.registered, networkState) and mutated by the connection calls it
makes (auth.connectUnregistered, auth.loginFromURI). -/
structure NativeApp where
  appInfo : AppInfo
  connected : Bool
  registered : Bool
  networkState : String
  behavior : NativeBehavior

/-- Modelled from the spec: a native public sign key, observed through its
getRaw and verify operations; a result of none models the native promise
rejecting (spec section 4.4, OperationFailed). -/
structure SignKey where
  rawData : Option (List Nat)
  verifyData : List Nat → Option (List Nat)

/-- A native object stored beside a session in a registry entry: the netObj
argument of genHandle. Sessions are registered with no netObj, container
lookups register a mutable-data reference, the crypto adapter expects a
sign key. -/
inductive NetObj
  | signKey (k : SignKey)
  | mdObj (m : Nat)

/-- Modelled from the spec: helpers.js is not under src; spec section 3
HandleEntry is the pair stored by genHandle(app, netObj) and read back by
getObj as obj.app / obj.netObj. -/
structure HandleEntry where
  app : NativeApp
  netObj : Option NetObj

/-- Modelled from the spec: the module-level handle-to-object table of
helpers.js (spec section 9, global handle-to-object table), with a counter
supplying handles unique among all currently and previously allocated ones
(spec section 3, Handle). -/
structure Registry where
  entries : List (Nat × HandleEntry)
  nextHandle : Nat

/-- First entry of the table bound to handle h, if any. -/
def findEntry (h : Nat) : List (Nat × HandleEntry) → Option HandleEntry
  | [] => none
  | (k, e) :: rest => if k = h then some e else findEntry h rest

/-- The handles bound in the table. -/
def keys (l : List (Nat × HandleEntry)) : List Nat :=
  l.map Prod.fst

/-- Removal of every binding of handle h from the table. -/
def removeEntry (h : Nat) : List (Nat × HandleEntry) → List (Nat × HandleEntry)
  | [] => []
  | (k, e) :: rest =>
    if k = h then removeEntry h rest else (k, e) :: removeEntry h rest

/-- Replacement of the native app stored under handle h, modelling the
in-place mutation of obj.app performed by the native connection calls. -/
def setAppEntries (h : Nat) (a : NativeApp) :
    List (Nat × HandleEntry) → List (Nat × HandleEntry)
  | [] => []
  | (k, e) :: rest =>
    if k = h then (k, { e with app := a }) :: setAppEntries h a rest
    else (k, e) :: setAppEntries h a rest

/-- Well-formedness of the registry: every bound handle was produced by the
fresh-handle counter. -/
def RegWF (reg : Registry) : Prop :=
  ∀ k ∈ keys reg.entries, k < reg.nextHandle

/-- Modelled from the spec: genHandle of helpers.js allocates a fresh entry
and returns a handle unique among all currently-allocated handles (spec
section 4.1, allocate). -/
def genHandle (a : NativeApp) (n : Option NetObj) (reg : Registry) :
    Nat × Registry :=
  (reg.nextHandle, ⟨(reg.nextHandle, ⟨a, n⟩) :: reg.entries, reg.nextHandle + 1⟩)

/-- Modelled from the spec: getObj of helpers.js resolves a handle to its
entry and fails with UnknownHandle if the handle was never allocated or has
since been freed (spec section 4.1, resolve; section 7 taxonomy). -/
def getObj (h : Nat) (reg : Registry) : Except Err HandleEntry :=
  match findEntry h reg.entries with
  | some e => .ok e
  | none => .error .UnknownHandle

/-- Modelled from the spec: freeObj of helpers.js removes the handle's entry
from the table (spec section 4.1, free; spec section 3 invariant I2). -/
def freeObj (h : Nat) (reg : Registry) : Registry :=
  ⟨removeEntry h reg.entries, reg.nextHandle⟩

/-- Registry after the native app stored under handle h has been mutated. -/
def setApp (h : Nat) (a : NativeApp) (reg : Registry) : Registry :=
  ⟨setAppEntries h a reg.entries, reg.nextHandle⟩

/-- Modelled from the spec: safeApp.initializeApp creates a session with no
network connection and an Unauthenticated auth state (spec section 4.2,
Created state). -/
def initializeApp (info : AppInfo) (b : NativeBehavior) : NativeApp :=
  ⟨info, false, false, "Disconnected", b⟩

/-- Modelled from the spec: auth.connectUnregistered opens a read-only
network session; the auth state stays Unauthenticated (spec section 4.2). -/
def connectUnregistered (a : NativeApp) : NativeApp :=
  { a with connected := true, networkState := "Connected" }

/-- Modelled from the spec: auth.loginFromURI redeems a granted AuthURI and
upgrades the session to Connected(Registered) (spec section 4.2). -/
def loginFromURI (a : NativeApp) (_uri : String) : NativeApp :=
  { a with connected := true, registered := true, networkState := "Connected" }

/-- The appInfo.scope assignment of initialise (part_000 lines 54-59): scope
is overwritten with the ambient sender URL when a sender context exists and
with null otherwise, whatever value the caller supplied. -/
def setScope (sender : Option String) (info : AppInfo) : AppInfo :=
  match sender with
  | some url => { info with scope := some url }
  | none => { info with scope := none }

/-- initialise from part_000 lines 53-63: rewrite appInfo.scope from the
ambient sender context, create a native app for it and register it with no
netObj, returning the fresh handle. -/
def initialise (sender : Option String) (info : AppInfo) (b : NativeBehavior)
    (reg : Registry) : Except Err Nat × Registry :=
  let r := genHandle (initializeApp (setScope sender info) b) none reg
  (.ok r.1, r.2)

/-- connect from part_000 lines 73-77: resolve the handle, connect the
native session unregistered, resolve with the same token. -/
def connect (t : Nat) (reg : Registry) : Except Err Nat × Registry :=
  match getObj t reg with
  | .error e => (.error e, reg)
  | .ok obj => (.ok t, setApp t (connectUnregistered obj.app) reg)

/-- A permission set: container names mapped to permission lists. -/
abbrev Perms := List (String × List String)

/-- A request descriptor dispatched to the authenticator: genAuthUri builds
a full request from the app identity, the permissions and the options,
genContainerAuthUri builds a container request with no options. -/
inductive AuthReq
  | full (info : AppInfo) (perms : Perms) (ownContainer : Bool)
  | containerReq (info : AppInfo) (perms : Perms)
  deriving DecidableEq

/-- The single-shot correlation callback of ipc.sendAuthReq: none models a
callback that never fires, some models the one invocation, carrying either
the authenticator's error or the granted AuthURI. -/
abbrev Callback := Option (Except Unit String)

/-- Outcome of an authorisation call: the promise's state (none while still
pending), the registry afterwards, and the requests dispatched to the
external channel. -/
structure AuthOutcome where
  result : Option (Except Err String)
  registry : Registry
  dispatched : List AuthReq

/-- authorise from part_000 lines 103-115: resolve the handle, build the
full auth request, dispatch it once to ipc.sendAuthReq; the promise stays
pending until the correlation callback fires, rejecting on an err argument
and resolving with the granted AuthURI otherwise. A failed resolution
rejects through the catch with no dispatch. -/
def authorise (t : Nat) (p : Perms) (o : Bool) (cb : Callback)
    (reg : Registry) : AuthOutcome :=
  match getObj t reg with
  | .error e => ⟨some (.error e), reg, []⟩
  | .ok obj =>
    ⟨cb.map (fun r =>
      match r with
      | .error _ => .error .AuthorizationDenied
      | .ok uri => .ok uri),
     reg, [.full obj.app.appInfo p o]⟩

/-- connectAuthorised from part_000 lines 129-133: resolve the handle, log
the native session in from the granted URI, resolve with the same token. -/
def connectAuthorised (t : Nat) (uri : String) (reg : Registry) :
    Except Err Nat × Registry :=
  match getObj t reg with
  | .error e => (.error e, reg)
  | .ok obj => (.ok t, setApp t (loginFromURI obj.app uri) reg)

/-- authoriseContainer from part_000 lines 150-162: resolve the handle,
build the container auth request, dispatch it once to ipc.sendAuthReq; the
promise stays pending until the correlation callback fires, rejecting on an
err argument and resolving with the granted AuthURI otherwise. -/
def authoriseContainer (t : Nat) (p : Perms) (cb : Callback)
    (reg : Registry) : AuthOutcome :=
  match getObj t reg with
  | .error e => ⟨some (.error e), reg, []⟩
  | .ok obj =>
    ⟨cb.map (fun r =>
      match r with
      | .error _ => .error .AuthorizationDenied
      | .ok uri => .ok uri),
     reg, [.containerReq obj.app.appInfo p]⟩

/-- The request authoriseContainer dispatches in place of the full request
authorise dispatches: same identity and permissions, no options. -/
def stripOptions : AuthReq → AuthReq
  | .full i p _ => .containerReq i p
  | r => r

/-- webFetch from part_000 lines 173-179: resolve the handle and perform the
native webFetch lookup. The continuation at line 176 then reads a variable
named app that is bound nowhere in scope (the module binds safeApp, the
closures bind obj and f), so once the native lookup has found a file the
chain throws a ReferenceError and the promise rejects. -/
def webFetch (t : Nat) (url : String) (reg : Registry) :
    Except Err (List Nat) × Registry :=
  match getObj t reg with
  | .error e => (.error e, reg)
  | .ok obj =>
    match obj.app.behavior.webFetchFile url with
    | none => (.error .OperationFailed, reg)
    | some _ => (.error .ReferenceFault, reg)

/-- isRegistered from part_000 lines 188-191: resolve the handle and read
the native auth.registered property. -/
def isRegistered (t : Nat) (reg : Registry) : Except Err Bool × Registry :=
  ((getObj t reg).map (fun obj => obj.app.registered), reg)

/-- networkState from part_000 lines 200-203: resolve the handle and read
the native networkState property. -/
def networkState (t : Nat) (reg : Registry) : Except Err String × Registry :=
  ((getObj t reg).map (fun obj => obj.app.networkState), reg)

/-- canAccessContainer from part_000 lines 215-218: resolve the handle and
ask the native session about access to the named container. -/
def canAccessContainer (t : Nat) (n : String) (ps : List String)
    (reg : Registry) : Except Err Bool × Registry :=
  ((getObj t reg).map (fun obj => obj.app.behavior.access n ps), reg)

/-- refreshContainersPermissions from part_000 lines 228-232: resolve the
handle, refresh the native session's cached container permissions (internal
to the out-of-scope native object), resolve with the same token. -/
def refreshContainersPermissions (t : Nat) (reg : Registry) :
    Except Err Nat × Registry :=
  match getObj t reg with
  | .error e => (.error e, reg)
  | .ok _ => (.ok t, reg)

/-- getContainersNames from part_000 lines 241-244: resolve the handle and
read the native list of container names. -/
def getContainersNames (t : Nat) (reg : Registry) :
    Except Err (List String) × Registry :=
  ((getObj t reg).map (fun obj => obj.app.behavior.containerNames), reg)

/-- getHomeContainer from part_000 lines 253-257: resolve the handle, fetch
the app's own container from the native session and register the resulting
mutable data under a fresh handle. -/
def getHomeContainer (t : Nat) (reg : Registry) : Except Err Nat × Registry :=
  match getObj t reg with
  | .error e => (.error e, reg)
  | .ok obj =>
    match obj.app.behavior.homeContainer with
    | none => (.error .OperationFailed, reg)
    | some md =>
      let r := genHandle obj.app (some (.mdObj md)) reg
      (.ok r.1, r.2)

/-- getContainer from part_000 lines 267-271: resolve the handle, fetch the
named container from the native session and register the resulting mutable
data under a fresh handle. -/
def getContainer (t : Nat) (n : String) (reg : Registry) :
    Except Err Nat × Registry :=
  match getObj t reg with
  | .error e => (.error e, reg)
  | .ok obj =>
    match obj.app.behavior.containers n with
    | none => (.error .OperationFailed, reg)
    | some md =>
      let r := genHandle obj.app (some (.mdObj md)) reg
      (.ok r.1, r.2)

/-- free from part_000 line 278: delegates to freeObj of helpers.js. -/
def free (t : Nat) (reg : Registry) : Registry :=
  freeObj t reg

/-- Outcome of a capability adapter operation: the promise's result and how
many times the native operation was invoked. -/
structure NativeOutcome (α : Type) where
  result : Except Err α
  nativeCalls : Nat

/-- getRaw from crypto_public_sign_key.js lines 22-25: resolve the handle,
then invoke the native getRaw on obj.netObj and return its result; a failed
resolution rejects with the native operation never invoked. A netObj that
is absent or not a sign key makes the member access throw a TypeError. -/
def getRaw (h : Nat) (reg : Registry) : NativeOutcome (List Nat) :=
  match getObj h reg with
  | .error e => ⟨.error e, 0⟩
  | .ok obj =>
    match obj.netObj with
    | some (.signKey k) =>
      match k.rawData with
      | some b => ⟨.ok b, 1⟩
      | none => ⟨.error .OperationFailed, 1⟩
    | _ => ⟨.error .TypeFault, 0⟩

/-- verify from crypto_public_sign_key.js lines 35-38: resolve the handle,
then invoke the native verify on obj.netObj with the given data and return
its result; a failed resolution rejects with the native operation never
invoked. A netObj that is absent or not a sign key makes the member access
throw a TypeError. -/
def verify (h : Nat) (d : List Nat) (reg : Registry) :
    NativeOutcome (List Nat) :=
  match getObj h reg with
  | .error e => ⟨.error e, 0⟩
  | .ok obj =>
    match obj.netObj with
    | some (.signKey k) =>
      match k.verifyData d with
      | some b => ⟨.ok b, 1⟩
      | none => ⟨.error .OperationFailed, 1⟩
    | _ => ⟨.error .TypeFault, 0⟩

/-- One invocation of a public operation of the layer, with its arguments:
the surface listed in the manifests of part_000 and of
crypto_public_sign_key.js. -/
inductive PubOp
  | initialiseOp (sender : Option String) (info : AppInfo) (b : NativeBehavior)
  | connectOp (t : Nat)
  | authoriseOp (t : Nat) (p : Perms) (o : Bool) (cb : Callback)
  | connectAuthorisedOp (t : Nat) (u : String)
  | authoriseContainerOp (t : Nat) (p : Perms) (cb : Callback)
  | webFetchOp (t : Nat) (u : String)
  | isRegisteredOp (t : Nat)
  | networkStateOp (t : Nat)
  | canAccessContainerOp (t : Nat) (n : String) (ps : List String)
  | refreshOp (t : Nat)
  | getContainersNamesOp (t : Nat)
  | getHomeContainerOp (t : Nat)
  | getContainerOp (t : Nat) (n : String)
  | freeOp (t : Nat)
  | getRawOp (t : Nat)
  | verifyOp (t : Nat) (d : List Nat)

/-- The registry after one public operation; the crypto adapter operations
read the registry without changing it. -/
def applyPub : PubOp → Registry → Registry
  | .initialiseOp s i b, reg => (initialise s i b reg).2
  | .connectOp t, reg => (connect t reg).2
  | .authoriseOp t p o cb, reg => (authorise t p o cb reg).registry
  | .connectAuthorisedOp t u, reg => (connectAuthorised t u reg).2
  | .authoriseContainerOp t p cb, reg => (authoriseContainer t p cb reg).registry
  | .webFetchOp t u, reg => (webFetch t u reg).2
  | .isRegisteredOp t, reg => (isRegistered t reg).2
  | .networkStateOp t, reg => (networkState t reg).2
  | .canAccessContainerOp t n ps, reg => (canAccessContainer t n ps reg).2
  | .refreshOp t, reg => (refreshContainersPermissions t reg).2
  | .getContainersNamesOp t, reg => (getContainersNames t reg).2
  | .getHomeContainerOp t, reg => (getHomeContainer t reg).2
  | .getContainerOp t n, reg => (getContainer t n reg).2
  | .freeOp t, reg => free t reg
  | .getRawOp _, reg => reg
  | .verifyOp _ _, reg => reg

/-- The registry after a sequence of public operations. -/
def applyPubs : List PubOp → Registry → Registry
  | [], reg => reg
  | op :: ops, reg => applyPubs ops (applyPub op reg)

@[simp]
theorem keys_nil : keys [] = [] := rfl

@[simp]
theorem keys_cons (k : Nat) (e : HandleEntry) (l : List (Nat × HandleEntry)) :
    keys ((k, e) :: l) = k :: keys l := rfl

theorem findEntry_eq_none_iff (h : Nat) (l : List (Nat × HandleEntry)) :
    findEntry h l = none ↔ h ∉ keys l := by
  induction l with
  | nil => simp [findEntry]
  | cons p rest ih =>
    obtain ⟨k, e⟩ := p
    by_cases hk : k = h
    · subst hk
      simp [findEntry]
    · simp [findEntry, hk, ih, Ne.symm hk]

theorem findEntry_removeEntry_self (h : Nat) (l : List (Nat × HandleEntry)) :
    findEntry h (removeEntry h l) = none := by
  induction l with
  | nil => simp [removeEntry, findEntry]
  | cons p rest ih =>
    obtain ⟨k, e⟩ := p
    by_cases hk : k = h
    · simp [removeEntry, hk, ih]
    · simp [removeEntry, hk, findEntry, ih]

theorem keys_removeEntry_subset (r x : Nat) (l : List (Nat × HandleEntry))
    (hx : x ∈ keys (removeEntry r l)) : x ∈ keys l := by
  induction l with
  | nil => simp [removeEntry] at hx
  | cons p rest ih =>
    obtain ⟨k, e⟩ := p
    by_cases hk : k = r
    · simp only [removeEntry, if_pos hk] at hx
      exact List.mem_cons_of_mem _ (ih hx)
    · simp only [removeEntry, if_neg hk, keys_cons, List.mem_cons] at hx
      cases hx with
      | inl h1 => exact List.mem_cons.mpr (Or.inl h1)
      | inr h2 => exact List.mem_cons_of_mem _ (ih h2)

theorem keys_setAppEntries (h : Nat) (a : NativeApp)
    (l : List (Nat × HandleEntry)) :
    keys (setAppEntries h a l) = keys l := by
  induction l with
  | nil => rfl
  | cons p rest ih =>
    obtain ⟨k, e⟩ := p
    by_cases hk : k = h <;> simp [setAppEntries, hk, ih]

theorem findEntry_setAppEntries_self (h : Nat) (a : NativeApp)
    (l : List (Nat × HandleEntry)) :
    findEntry h (setAppEntries h a l) =
      (findEntry h l).map (fun e => { e with app := a }) := by
  induction l with
  | nil => simp [setAppEntries, findEntry]
  | cons p rest ih =>
    obtain ⟨k, e⟩ := p
    by_cases hk : k = h
    · simp [setAppEntries, hk, findEntry, ih]
    · simp [setAppEntries, hk, findEntry, ih]

theorem getObj_eq_ok_iff (t : Nat) (reg : Registry) (e : HandleEntry) :
    getObj t reg = .ok e ↔ findEntry t reg.entries = some e := by
  unfold getObj
  cases h : findEntry t reg.entries <;> simp

theorem getObj_of_findEntry_none (t : Nat) (reg : Registry)
    (hn : findEntry t reg.entries = none) :
    getObj t reg = .error .UnknownHandle := by
  simp [getObj, hn]

/-- A handle that is not bound now and lies below the fresh-handle counter:
the state a freed handle is in, preserved by every public operation. -/
def Unallocated (h : Nat) (reg : Registry) : Prop :=
  RegWF reg ∧ findEntry h reg.entries = none ∧ h < reg.nextHandle

theorem unallocated_genHandle (h : Nat) (a : NativeApp) (n : Option NetObj)
    (reg : Registry) (hu : Unallocated h reg) :
    Unallocated h (genHandle a n reg).2 := by
  obtain ⟨hwf, hn, hlt⟩ := hu
  have hne : reg.nextHandle ≠ h := by omega
  refine ⟨?_, ?_, ?_⟩
  · intro k hk
    simp only [genHandle, keys_cons, List.mem_cons] at hk
    rcases hk with rfl | hk
    · simp [genHandle]
    · exact Nat.lt_succ_of_lt (hwf k hk)
  · simp [genHandle, findEntry, hne, hn]
  · simp only [genHandle]
    omega

theorem unallocated_freeObj (h k : Nat) (reg : Registry)
    (hu : Unallocated h reg) : Unallocated h (freeObj k reg) := by
  obtain ⟨hwf, hn, hlt⟩ := hu
  refine ⟨?_, ?_, hlt⟩
  · intro x hx
    exact hwf x (keys_removeEntry_subset k x reg.entries hx)
  · rw [findEntry_eq_none_iff] at hn ⊢
    intro hmem
    exact hn (keys_removeEntry_subset k h reg.entries hmem)

theorem unallocated_setApp (h k : Nat) (a : NativeApp) (reg : Registry)
    (hu : Unallocated h reg) : Unallocated h (setApp k a reg) := by
  obtain ⟨hwf, hn, hlt⟩ := hu
  refine ⟨?_, ?_, hlt⟩
  · intro x hx
    rw [setApp] at hx
    simp only [keys_setAppEntries] at hx
    exact hwf x hx
  · rw [findEntry_eq_none_iff] at hn ⊢
    rw [setApp]
    simpa [keys_setAppEntries] using hn

theorem unallocated_applyPub (h : Nat) (op : PubOp) (reg : Registry)
    (hu : Unallocated h reg) : Unallocated h (applyPub op reg) := by
  cases op with
  | initialiseOp s i b =>
    simpa [applyPub, initialise] using
      unallocated_genHandle h (initializeApp (setScope s i) b) none reg hu
  | connectOp t =>
    cases hg : getObj t reg with
    | error e => simpa [applyPub, connect, hg] using hu
    | ok obj =>
      simpa [applyPub, connect, hg] using
        unallocated_setApp h t (connectUnregistered obj.app) reg hu
  | authoriseOp t p o cb =>
    cases hg : getObj t reg with
    | error e => simpa [applyPub, authorise, hg] using hu
    | ok obj => simpa [applyPub, authorise, hg] using hu
  | connectAuthorisedOp t u =>
    cases hg : getObj t reg with
    | error e => simpa [applyPub, connectAuthorised, hg] using hu
    | ok obj =>
      simpa [applyPub, connectAuthorised, hg] using
        unallocated_setApp h t (loginFromURI obj.app u) reg hu
  | authoriseContainerOp t p cb =>
    cases hg : getObj t reg with
    | error e => simpa [applyPub, authoriseContainer, hg] using hu
    | ok obj => simpa [applyPub, authoriseContainer, hg] using hu
  | webFetchOp t u =>
    cases hg : getObj t reg with
    | error e => simpa [applyPub, webFetch, hg] using hu
    | ok obj =>
      cases hf : obj.app.behavior.webFetchFile u with
      | none => simpa [applyPub, webFetch, hg, hf] using hu
      | some f => simpa [applyPub, webFetch, hg, hf] using hu
  | isRegisteredOp t => simpa [applyPub, isRegistered] using hu
  | networkStateOp t => simpa [applyPub, networkState] using hu
  | canAccessContainerOp t n ps =>
    simpa [applyPub, canAccessContainer] using hu
  | refreshOp t =>
    cases hg : getObj t reg with
    | error e => simpa [applyPub, refreshContainersPermissions, hg] using hu
    | ok obj => simpa [applyPub, refreshContainersPermissions, hg] using hu
  | getContainersNamesOp t => simpa [applyPub, getContainersNames] using hu
  | getHomeContainerOp t =>
    cases hg : getObj t reg with
    | error e => simpa [applyPub, getHomeContainer, hg] using hu
    | ok obj =>
      cases hc : obj.app.behavior.homeContainer with
      | none => simpa [applyPub, getHomeContainer, hg, hc] using hu
      | some md =>
        simpa [applyPub, getHomeContainer, hg, hc] using
          unallocated_genHandle h obj.app (some (.mdObj md)) reg hu
  | getContainerOp t n =>
    cases hg : getObj t reg with
    | error e => simpa [applyPub, getContainer, hg] using hu
    | ok obj =>
      cases hc : obj.app.behavior.containers n with
      | none => simpa [applyPub, getContainer, hg, hc] using hu
      | some md =>
        simpa [applyPub, getContainer, hg, hc] using
          unallocated_genHandle h obj.app (some (.mdObj md)) reg hu
  | freeOp t => simpa [applyPub, free] using unallocated_freeObj h t reg hu
  | getRawOp t => simpa [applyPub] using hu
  | verifyOp t d => simpa [applyPub] using hu

theorem unallocated_applyPubs (h : Nat) (ops : List PubOp) (reg : Registry)
    (hu : Unallocated h reg) : Unallocated h (applyPubs ops reg) := by
  induction ops generalizing reg with
  | nil => simpa [applyPubs] using hu
  | cons op ops ih => exact ih (applyPub op reg) (unallocated_applyPub h op reg hu)

theorem unallocated_after_free (h : Nat) (reg : Registry) (hwf : RegWF reg)
    (hlt : h < reg.nextHandle) : Unallocated h (free h reg) := by
  refine ⟨?_, ?_, ?_⟩
  · intro x hx
    exact hwf x (keys_removeEntry_subset h x reg.entries hx)
  · exact findEntry_removeEntry_self h reg.entries
  · exact hlt

/-- Native behaviour fixture for concrete witnesses: no container access, a
webFetch lookup that always finds a file. -/
def behaviorW : NativeBehavior :=
  ⟨fun _ _ => false, [], fun _ => none, none, fun _ => some 5⟩

/-- AppInfo fixture matching spec Scenario A. -/
def infoW : AppInfo := ⟨"a.b", "App", "V", none⟩

/-- A freshly initialised (Created) native session fixture. -/
def appW : NativeApp := ⟨infoW, false, false, "Disconnected", behaviorW⟩

/-- Registry entry holding the Created session fixture. -/
def entryW : HandleEntry := ⟨appW, none⟩

/-- Registry holding one Created session under handle 0. -/
def regW : Registry := ⟨[(0, entryW)], 1⟩

/-- Sign key fixture whose native getRaw resolves and whose native verify
echoes its input. -/
def keyW : SignKey := ⟨some [1, 2], fun d => some d⟩

/-- Registry entry holding the sign key fixture. -/
def entryK : HandleEntry := ⟨appW, some (.signKey keyW)⟩

/-- Registry holding the session under handle 0 and the sign key under 1. -/
def regK : Registry := ⟨[(0, entryW), (1, entryK)], 2⟩

/-- A connected, unregistered session fixture. -/
def appC7 : NativeApp := ⟨infoW, true, false, "Connected", behaviorW⟩

/-- Registry holding the connected session under handle 0. -/
def regC7 : Registry := ⟨[(0, ⟨appC7, none⟩)], 1⟩

theorem regW_wf : RegWF regW := by
  intro k hk
  simp only [regW, keys_cons, keys_nil, List.mem_cons,
    List.not_mem_nil, or_false] at hk
  simp [regW, hk]

/-- C1: after free(H) every subsequent public operation invoked with H fails
with UnknownHandle — resolution, connect, authorise, connectAuthorised,
isRegistered, getContainer, getRaw and verify all fail — and the freed
entry is removed and stays unresolvable across any further sequence of
public operations. -/
theorem free_makes_handle_unknown (reg : Registry) (h : Nat)
    (hwf : RegWF reg) (hlt : h < reg.nextHandle) :
    getObj h (free h reg) = .error .UnknownHandle ∧
    (connect h (free h reg)).1 = .error .UnknownHandle ∧
    (∀ p o cb, (authorise h p o cb (free h reg)).result =
      some (.error .UnknownHandle)) ∧
    (∀ u, (connectAuthorised h u (free h reg)).1 = .error .UnknownHandle) ∧
    (isRegistered h (free h reg)).1 = .error .UnknownHandle ∧
    (∀ n, (getContainer h n (free h reg)).1 = .error .UnknownHandle) ∧
    (getRaw h (free h reg)).result = .error .UnknownHandle ∧
    (∀ d, (verify h d (free h reg)).result = .error .UnknownHandle) ∧
    (∀ ops, findEntry h (applyPubs ops (free h reg)).entries = none) := by
  have hn : findEntry h (free h reg).entries = none :=
    findEntry_removeEntry_self h reg.entries
  have hg : getObj h (free h reg) = .error .UnknownHandle :=
    getObj_of_findEntry_none _ _ hn
  refine ⟨hg, ?_, ?_, ?_, ?_, ?_, ?_, ?_, ?_⟩
  · simp [connect, hg]
  · intro p o cb
    simp [authorise, hg]
  · intro u
    simp [connectAuthorised, hg]
  · simp [isRegistered, hg, Except.map]
  · intro n
    simp [getContainer, hg]
  · simp [getRaw, hg]
  · intro d
    simp [verify, hg]
  · intro ops
    exact (unallocated_applyPubs h ops (free h reg)
      (unallocated_after_free h reg hwf hlt)).2.1

/-- Witness for free_makes_handle_unknown: freeing handle 0 of the concrete
one-session registry makes resolution and isRegistered fail. -/
theorem free_makes_handle_unknown_wit :
    getObj 0 (free 0 regW) = .error .UnknownHandle ∧
    (isRegistered 0 (free 0 regW)).1 = .error .UnknownHandle :=
  ⟨(free_makes_handle_unknown regW 0 regW_wf (by decide)).1,
   (free_makes_handle_unknown regW 0 regW_wf (by decide)).2.2.2.2.1⟩

/-- C2: when the dispatch callback fires with an error, authorise rejects
with AuthorizationDenied and the registry — hence the session's state — is
left exactly as it was. -/
theorem authorise_callback_error_denied (t : Nat) (p : Perms) (o : Bool)
    (reg : Registry) (obj : HandleEntry) (hobj : getObj t reg = .ok obj) :
    (authorise t p o (some (.error ())) reg).result =
      some (.error .AuthorizationDenied) ∧
    (authorise t p o (some (.error ())) reg).registry = reg := by
  simp [authorise, hobj]

/-- Witness for authorise_callback_error_denied at the Created session of
the concrete registry. -/
theorem authorise_callback_error_denied_wit :
    (authorise 0 [("_public", ["Insert"])] true (some (.error ())) regW).result =
      some (.error .AuthorizationDenied) ∧
    (authorise 0 [("_public", ["Insert"])] true (some (.error ())) regW).registry =
      regW :=
  authorise_callback_error_denied 0 [("_public", ["Insert"])] true regW entryW rfl

/-- C3: a granted authorise resolves with the AuthURI; feeding that URI into
connectAuthorised on the registry authorise left behind succeeds, returns
the same session handle, and leaves the session registered, so a subsequent
isRegistered resolves to true. -/
theorem authorise_connectAuthorised_roundtrip (t : Nat) (p : Perms) (o : Bool)
    (uri : String) (reg : Registry) (obj : HandleEntry)
    (hobj : getObj t reg = .ok obj) :
    (authorise t p o (some (.ok uri)) reg).result = some (.ok uri) ∧
    (connectAuthorised t uri
      (authorise t p o (some (.ok uri)) reg).registry).1 = .ok t ∧
    (isRegistered t (connectAuthorised t uri
      (authorise t p o (some (.ok uri)) reg).registry).2).1 = .ok true := by
  have hreg : (authorise t p o (some (.ok uri)) reg).registry = reg := by
    simp [authorise, hobj]
  have hfind : findEntry t reg.entries = some obj :=
    (getObj_eq_ok_iff t reg obj).1 hobj
  refine ⟨by simp [authorise, hobj], ?_, ?_⟩
  · rw [hreg]
    simp [connectAuthorised, hobj]
  · rw [hreg]
    have hconn : (connectAuthorised t uri reg).2 =
        setApp t (loginFromURI obj.app uri) reg := by
      simp [connectAuthorised, hobj]
    rw [hconn]
    have hfind2 : findEntry t (setApp t (loginFromURI obj.app uri) reg).entries =
        some { obj with app := loginFromURI obj.app uri } := by
      rw [setApp]
      rw [findEntry_setAppEntries_self]
      simp [hfind]
    have hobj2 : getObj t (setApp t (loginFromURI obj.app uri) reg) =
        .ok { obj with app := loginFromURI obj.app uri } := by
      simp only [getObj, hfind2]
    simp only [isRegistered, hobj2, Except.map]
    simp [loginFromURI]

/-- Witness for authorise_connectAuthorised_roundtrip at the Created session
of the concrete registry. -/
theorem authorise_connectAuthorised_roundtrip_wit :
    (isRegistered 0 (connectAuthorised 0 "safe-auth://granted"
      (authorise 0 [("_public", ["Insert"])] false (some (.ok "safe-auth://granted"))
        regW).registry).2).1 = .ok true :=
  (authorise_connectAuthorised_roundtrip 0 [("_public", ["Insert"])] false
    "safe-auth://granted" regW entryW rfl).2.2

/-- C4: on a valid session handle authorise dispatches exactly one request
to the external channel, and its promise is settled exactly when the single
correlation callback has fired; with no callback it stays pending forever. -/
theorem authorise_single_dispatch (t : Nat) (p : Perms) (o : Bool)
    (reg : Registry) (obj : HandleEntry) (hobj : getObj t reg = .ok obj) :
    ∀ cb, (authorise t p o cb reg).dispatched.length = 1 ∧
      ((authorise t p o cb reg).result = none ↔ cb = none) := by
  intro cb
  cases cb with
  | none => simp [authorise, hobj]
  | some r => simp [authorise, hobj]

/-- Witness for authorise_single_dispatch at the Created session of the
concrete registry, with the callback that never fires. -/
theorem authorise_single_dispatch_wit :
    (authorise 0 [("_public", ["Insert"])] true none regW).dispatched.length = 1 ∧
    ((authorise 0 [("_public", ["Insert"])] true none regW).result = none ↔
      (none : Callback) = none) :=
  authorise_single_dispatch 0 [("_public", ["Insert"])] true regW entryW rfl none

/-- C5 as stated fails on the code: handle 0 of the concrete registry holds
a session that is known but not yet connected, and isRegistered succeeds,
resolving with false, instead of failing with InvalidSession. -/
theorem isRegistered_created_succeeds :
    appW.connected = false ∧
    (isRegistered 0 regW).1 = .ok false ∧
    (isRegistered 0 regW).1 ≠ .error Err.InvalidSession := by
  refine ⟨rfl, rfl, ?_⟩
  simp [isRegistered, getObj, regW, entryW, findEntry, Except.map]

/-- C5 amended: the four queries are pure reads that leave the registry
unchanged; they fail with UnknownHandle when the session handle is unknown,
and on a known handle they resolve with the native session's current values
without any connectedness check. -/
theorem queries_pure_reads (t : Nat) (n : String) (ps : List String)
    (reg : Registry) :
    (isRegistered t reg).2 = reg ∧
    (networkState t reg).2 = reg ∧
    (canAccessContainer t n ps reg).2 = reg ∧
    (getContainersNames t reg).2 = reg ∧
    (findEntry t reg.entries = none →
      (isRegistered t reg).1 = .error .UnknownHandle ∧
      (networkState t reg).1 = .error .UnknownHandle ∧
      (canAccessContainer t n ps reg).1 = .error .UnknownHandle ∧
      (getContainersNames t reg).1 = .error .UnknownHandle) ∧
    (∀ e, findEntry t reg.entries = some e →
      (isRegistered t reg).1 = .ok e.app.registered ∧
      (networkState t reg).1 = .ok e.app.networkState ∧
      (canAccessContainer t n ps reg).1 = .ok (e.app.behavior.access n ps) ∧
      (getContainersNames t reg).1 = .ok e.app.behavior.containerNames) := by
  refine ⟨rfl, rfl, rfl, rfl, ?_, ?_⟩
  · intro hn
    refine ⟨?_, ?_, ?_, ?_⟩ <;>
      simp [isRegistered, networkState, canAccessContainer, getContainersNames,
        getObj, hn, Except.map]
  · intro e he
    refine ⟨?_, ?_, ?_, ?_⟩ <;>
      simp [isRegistered, networkState, canAccessContainer, getContainersNames,
        getObj, he, Except.map]

/-- Witness for queries_pure_reads at the Created session of the concrete
registry. -/
theorem queries_pure_reads_wit :
    (isRegistered 0 regW).1 = .ok false ∧
    (networkState 0 regW).1 = .ok "Disconnected" := by
  have hmain := (queries_pure_reads 0 "_public" ["Read"] regW).2.2.2.2.2 entryW rfl
  exact ⟨hmain.1, hmain.2.1⟩

/-- C6: initialise registers a fresh handle whose session is neither
connected nor registered, and connect on that handle succeeds, returns the
same handle and leaves the session connected but still unregistered, with
isRegistered resolving to false. -/
theorem initialise_connect_scenario (sender : Option String) (info : AppInfo)
    (b : NativeBehavior) (reg : Registry) (hwf : RegWF reg) :
    (initialise sender info b reg).1 = .ok reg.nextHandle ∧
    findEntry reg.nextHandle reg.entries = none ∧
    (isRegistered reg.nextHandle (initialise sender info b reg).2).1 =
      .ok false ∧
    (connect reg.nextHandle (initialise sender info b reg).2).1 =
      .ok reg.nextHandle ∧
    (∃ e, findEntry reg.nextHandle
        (connect reg.nextHandle (initialise sender info b reg).2).2.entries =
          some e ∧
      e.app.connected = true ∧ e.app.registered = false) ∧
    (isRegistered reg.nextHandle
      (connect reg.nextHandle (initialise sender info b reg).2).2).1 =
      .ok false := by
  have hfresh : findEntry reg.nextHandle reg.entries = none := by
    rw [findEntry_eq_none_iff]
    intro hmem
    exact absurd (hwf reg.nextHandle hmem) (lt_irrefl reg.nextHandle)
  have hfind1 : findEntry reg.nextHandle (initialise sender info b reg).2.entries =
      some ⟨initializeApp (setScope sender info) b, none⟩ := by
    simp [initialise, genHandle, findEntry]
  have hobj1 : getObj reg.nextHandle (initialise sender info b reg).2 =
      .ok ⟨initializeApp (setScope sender info) b, none⟩ := by
    simp only [getObj, hfind1]
  have hconn : (connect reg.nextHandle (initialise sender info b reg).2).2 =
      setApp reg.nextHandle
        (connectUnregistered (initializeApp (setScope sender info) b))
        (initialise sender info b reg).2 := by
    simp [connect, hobj1]
  have hfind2 : findEntry reg.nextHandle
      (connect reg.nextHandle (initialise sender info b reg).2).2.entries =
      some ⟨connectUnregistered (initializeApp (setScope sender info) b), none⟩ := by
    rw [hconn, setApp, findEntry_setAppEntries_self, hfind1]
    rfl
  have hobj2 : getObj reg.nextHandle
      (connect reg.nextHandle (initialise sender info b reg).2).2 =
      .ok ⟨connectUnregistered (initializeApp (setScope sender info) b), none⟩ := by
    simp only [getObj, hfind2]
  refine ⟨rfl, hfresh, ?_, ?_, ?_, ?_⟩
  · simp only [isRegistered, hobj1, Except.map]
    simp [initializeApp]
  · simp [connect, hobj1]
  · refine ⟨⟨connectUnregistered (initializeApp (setScope sender info) b), none⟩,
      hfind2, ?_, ?_⟩ <;>
      simp [connectUnregistered, initializeApp]
  · simp only [isRegistered, hobj2, Except.map]
    simp [connectUnregistered, initializeApp]

/-- Witness for initialise_connect_scenario at the concrete registry, where
the fresh handle is 1. -/
theorem initialise_connect_scenario_wit :
    (isRegistered 1 (connect 1 (initialise none infoW behaviorW regW).2).2).1 =
      .ok false :=
  (initialise_connect_scenario none infoW behaviorW regW regW_wf).2.2.2.2.2

/-- C7 evaluated at its failing input: handle 0 of regC7 is a connected
session whose native webFetch lookup finds a file for the url, yet webFetch
rejects with the ReferenceError raised by the unbound variable named app at
part_000 line 176, instead of resolving with the found file's bytes. -/
theorem webFetch_reference_fault :
    appC7.connected = true ∧
    appC7.behavior.webFetchFile "safe://site" = some 5 ∧
    webFetch 0 "safe://site" regC7 = (.error .ReferenceFault, regC7) :=
  ⟨rfl, rfl, rfl⟩

/-- C8: for every option value and callback outcome, authoriseContainer
produces the same result and the same registry as authorise, and dispatches
the same single request with the options stripped to a container request;
it differs only in that narrower dispatched request and in taking no
options argument. -/
theorem authoriseContainer_matches_authorise (t : Nat) (p : Perms) (o : Bool)
    (cb : Callback) (reg : Registry) :
    (authoriseContainer t p cb reg).result = (authorise t p o cb reg).result ∧
    (authoriseContainer t p cb reg).registry =
      (authorise t p o cb reg).registry ∧
    (authoriseContainer t p cb reg).dispatched =
      (authorise t p o cb reg).dispatched.map stripOptions := by
  cases hg : getObj t reg with
  | error e => simp [authorise, authoriseContainer, hg, stripOptions]
  | ok obj => simp [authorise, authoriseContainer, hg, stripOptions]

/-- C9: the sign key adapter operations resolve the handle first; a failed
resolution fails with the registry's unknown-handle error and the native
operation is never invoked, while a successful resolution invokes the
native operation exactly once and returns its result, a native rejection
surfacing as OperationFailed. -/
theorem signkey_adapter_resolves_first (h : Nat) (reg : Registry)
    (d : List Nat) :
    (findEntry h reg.entries = none →
      getRaw h reg = ⟨.error .UnknownHandle, 0⟩ ∧
      verify h d reg = ⟨.error .UnknownHandle, 0⟩) ∧
    (∀ e k, findEntry h reg.entries = some e →
      e.netObj = some (.signKey k) →
      (getRaw h reg).nativeCalls = 1 ∧
      (∀ b, k.rawData = some b → (getRaw h reg).result = .ok b) ∧
      (k.rawData = none → (getRaw h reg).result = .error .OperationFailed) ∧
      (verify h d reg).nativeCalls = 1 ∧
      (∀ b, k.verifyData d = some b → (verify h d reg).result = .ok b) ∧
      (k.verifyData d = none →
        (verify h d reg).result = .error .OperationFailed)) := by
  constructor
  · intro hn
    have hg := getObj_of_findEntry_none h reg hn
    exact ⟨by simp [getRaw, hg], by simp [verify, hg]⟩
  · intro e k he hk
    have hg : getObj h reg = .ok e := (getObj_eq_ok_iff h reg e).2 he
    refine ⟨?_, ?_, ?_, ?_, ?_, ?_⟩
    · cases hr : k.rawData with
      | none => simp [getRaw, hg, hk, hr]
      | some b => simp [getRaw, hg, hk, hr]
    · intro b hb
      simp [getRaw, hg, hk, hb]
    · intro hb
      simp [getRaw, hg, hk, hb]
    · cases hr : k.verifyData d with
      | none => simp [verify, hg, hk, hr]
      | some b => simp [verify, hg, hk, hr]
    · intro b hb
      simp [verify, hg, hk, hb]
    · intro hb
      simp [verify, hg, hk, hb]

/-- Witness for signkey_adapter_resolves_first at the sign key stored under
handle 1 of the concrete two-entry registry. -/
theorem signkey_adapter_resolves_first_wit :
    (getRaw 1 regK).result = .ok [1, 2] ∧ (getRaw 1 regK).nativeCalls = 1 := by
  have hmain := (signkey_adapter_resolves_first 1 regK []).2 entryK keyW rfl rfl
  exact ⟨hmain.2.1 [1, 2] rfl, hmain.1⟩

/-- C10: initialise overwrites the caller's appInfo scope from the ambient
sender context — the sender's URL when a sender is present, null otherwise
— whatever scope the caller supplied; the other fields are unchanged, and
the session is created and registered from exactly that rewritten appInfo. -/
theorem initialise_overwrites_scope (sender : Option String) (info : AppInfo)
    (b : NativeBehavior) (reg : Registry) :
    (setScope sender info).scope = sender ∧
    (setScope sender info).id = info.id ∧
    (setScope sender info).name = info.name ∧
    (setScope sender info).vendor = info.vendor ∧
    (∀ s, setScope sender { info with scope := s } = setScope sender info) ∧
    findEntry reg.nextHandle (initialise sender info b reg).2.entries =
      some ⟨initializeApp (setScope sender info) b, none⟩ := by
  refine ⟨?_, ?_, ?_, ?_, ?_, ?_⟩
  · cases sender <;> rfl
  · cases sender <;> rfl
  · cases sender <;> rfl
  · cases sender <;> rfl
  · intro s
    cases sender <;> rfl
  · simp [initialise, genHandle, findEntry]
